import Mathlib

/-!
Verification development for the socket-gateway module `src/socket.io/user.js`
of NodeBB.

Each remote-procedure handler is shallowly embedded as a pure Lean function.
External collaborators (user service, privilege checks, database, emailer,
audit log, config) are modelled by an oracle environment `Env`; every call a
handler makes into a collaborator is recorded, in program order, in a trace of
`Effect`s.  A handler returns `(Except String α) × List Effect`: the `Except`
carries the JS return value or the message of the thrown error, and the trace
holds exactly the external interactions the handler performed before
returning or throwing.  JS falsiness of the payload fields (`undefined`,
empty string, numeric `0`) is modelled explicitly.
-/

namespace NodeBBSocketUser

/-- Error message thrown by the source as `[[error:invalid-data]]`. -/
def invalidData : String := "[[error:invalid-data]]"

/-- Error message thrown by the source as `[[error:no-privileges]]`. -/
def noPrivileges : String := "[[error:no-privileges]]"

/-- Error message `[[error:email-confirmations-are-disabled]]`. -/
def emailConfirmationsDisabled : String := "[[error:email-confirmations-are-disabled]]"

/-- Error message `[[error:invalid-email]]` (an expected reset failure). -/
def invalidEmail : String := "[[error:invalid-email]]"

/-- Error message `[[error:reset-rate-limited]]` (an expected reset failure). -/
def resetRateLimited : String := "[[error:reset-rate-limited]]"

/-- Per-connection session context: `socket.uid` (0 = anonymous) and `socket.ip`. -/
structure Socket where
  uid : Nat
  ip : String
deriving DecidableEq

/-- The object passed to `events.log` by `reset.send`'s local `logEvent`
(fields `type`, `text`, `ip`, `uid`, `email`). -/
structure LogEntry where
  type : String
  text : String
  ip : String
  uid : Nat
  email : String
deriving DecidableEq

/-- One external interaction performed by a handler, as recorded in its trace. -/
inductive Effect where
  | warnDeprecated (msg : String)
  | apiDeleteAccount (sessionUid : Nat) (payloadUid : Option Nat) (payloadRest : String)
  | apiFollow (sessionUid : Nat)
  | apiUnfollow (sessionUid : Nat)
  | apiUpdateSettings (sessionUid : Nat)
  | apiUpdateSetting (sessionUid : Nat) (setting : String)
  | sendValidationEmail (uid : Nat)
  | userResetSend (email : String)
  | eventsLog (entry : LogEntry)
  | eventsLogCommit (type : String) (uid : Nat) (ip : String)
  | sleep (ms : Nat)
  | dbGetObjectField (key : String) (field : String)
  | userResetCommit (code : String) (password : String)
  | hooksFire (hook : String) (uid : Nat)
  | getUserField (uid : Nat) (field : String)
  | emailerSend (template : String) (uid : Nat) (username : String) (date : String)
  | getTotalUnread (uid : Nat)
  | getUnreadChat (uid : Nat)
  | getUnreadTids (uid : Nat)
  | getUnreadNotifCount (uid : Nat)
  | canEdit (callerUid : Nat) (targetUid : Nat)
  | isModeratorOfAnyCategory (uid : Nat)
  | isAdministrator (uid : Nat)
  | appendModerationNote (targetUid : Nat) (authorUid : Nat) (note : String) (timestamp : Nat)
  | userDeleteUpload (callerUid : Nat) (targetUid : Nat) (name : String)
  | setUserField (uid : Nat) (field : String) (value : Nat)
deriving DecidableEq

/-- An effect is a call into an external service.  The deprecation warning is
pure gateway-side instrumentation and the cooldown delay is a local timer;
everything else reaches an external collaborator. -/
def Effect.isExternalCall : Effect → Bool
  | .warnDeprecated _ => false
  | .sleep _ => false
  | _ => true

/-- An effect is an audit-log write (a call to `events.log`). -/
def Effect.isAuditLog : Effect → Bool
  | .eventsLog _ => true
  | .eventsLogCommit _ _ _ => true
  | _ => false

/-- An effect is a notification-email composition (a call to `emailer.send`). -/
def Effect.isEmailSend : Effect → Bool
  | .emailerSend _ _ _ _ => true
  | _ => false

/-- An effect is a moderation-note append. -/
def Effect.isNoteAppend : Effect → Bool
  | .appendModerationNote _ _ _ _ => true
  | _ => false

/-- An effect is the cooldown delay (a `sleep` call). -/
def Effect.isSleep : Effect → Bool
  | .sleep _ => true
  | _ => false

/-- Oracle environment: configuration flags, the results the external
collaborators would return, and the current wall-clock date/time.
`gdpr_consent u` stands for the database field `user:<u>.gdpr_consent`;
`resetUid c` for the database field `reset:uid.<c>`. -/
structure Env where
  requireEmailConfirmation : Bool
  passwordDisableEdit : Bool
  resetSendResult : String → Except String Unit
  resetUid : String → Nat
  resetCommitResult : String → String → Except String Unit
  username : Nat → String
  year : Nat
  month0 : Nat
  day : Nat
  canEdit : Nat → Nat → Bool
  isModeratorOfAnyCategory : Nat → Bool
  isAdministrator : Nat → Bool
  gdpr_consent : Nat → String
  totalUnread : Nat → Nat
  unreadChat : Nat → Nat
  unreadNotifCount : Nat → Nat
  unreadTidsAll : Nat → Nat
  unreadTidsNew : Nat → Nat
  unreadTidsWatched : Nat → Nat
  unreadTidsUnreplied : Nat → Nat
  now : Nat

/-- JS falsiness of an optional string payload field (`undefined` or `''`). -/
def strFalsy : Option String → Bool
  | none => true
  | some s => s == ""

/-- JS falsiness of an optional numeric payload field (`undefined` or `0`). -/
def natFalsy : Option Nat → Bool
  | none => true
  | some n => n == 0

namespace SocketUser

/-- The payload of `deleteAccount`: a `uid` field (which the handler
overwrites) plus whatever other fields the caller sent, kept opaque. -/
structure DeleteAccountData where
  uid : Option Nat
  rest : String
deriving DecidableEq

/-- `SocketUser.deleteAccount`: emits the deprecation warning, overwrites
`data.uid` with `socket.uid`, then delegates to `api.users.deleteAccount`.
The recorded effect carries the payload exactly as the external api receives
it.  No gateway-side authentication check is performed. -/
def deleteAccount (socket : Socket) (data : DeleteAccountData) :
    Except String Unit × List Effect :=
  let data2 : DeleteAccountData := { data with uid := some socket.uid }
  (Except.ok (),
   [Effect.warnDeprecated "DELETE /api/v3/users/:uid/account",
    Effect.apiDeleteAccount socket.uid data2.uid data2.rest])

/-- `SocketUser.emailConfirm`: rejects anonymous sessions with
`no-privileges`, then rejects when `meta.config.requireEmailConfirmation` is
off, then sends the validation email. -/
def emailConfirm (env : Env) (socket : Socket) :
    Except String Unit × List Effect :=
  if socket.uid == 0 then
    (Except.error noPrivileges, [])
  else if !env.requireEmailConfirmation then
    (Except.error emailConfirmationsDisabled, [])
  else
    (Except.ok (), [Effect.sendValidationEmail socket.uid])

/-- The two *expected* reset failure messages swallowed by `reset.send`. -/
def internalErrors : List String := [invalidEmail, resetRateLimited]

/-- The `events.log` entry written by `reset.send`'s local `logEvent`. -/
def logEvent (socket : Socket) (email : String) (text : String) : Effect :=
  Effect.eventsLog
    { type := "password-reset", text := text, ip := socket.ip,
      uid := socket.uid, email := email }

/-- `SocketUser.reset.send`: validates the email (`invalid-data` when falsy),
rejects when `password:disableEdit` is set (`no-privileges`), then requests an
issuance from `user.reset.send`.  On success it logs a success audit event and
sleeps 2500 ms; on failure it logs the failure message, swallows the two
expected failure kinds and rethrows anything else. -/
def reset.send (env : Env) (socket : Socket) (email : Option String) :
    Except String Unit × List Effect :=
  match email with
  | none => (Except.error invalidData, [])
  | some e =>
    if e == "" then
      (Except.error invalidData, [])
    else if env.passwordDisableEdit then
      (Except.error noPrivileges, [])
    else
      match env.resetSendResult e with
      | Except.ok _ =>
        (Except.ok (),
         [Effect.userResetSend e,
          logEvent socket e "[[success:success]]",
          Effect.sleep 2500])
      | Except.error m =>
        let tr := [Effect.userResetSend e, logEvent socket e m]
        if internalErrors.contains m then
          (Except.ok (), tr)
        else
          (Except.error m, tr)

/-- The payload of `reset.commit`: `{code, password}` with possibly missing
or empty fields. -/
structure CommitData where
  code : Option String
  password : Option String
deriving DecidableEq

/-- The date string `reset.commit` interpolates into the notification email:
`getFullYear() + '/' + (getMonth() + 1) + '/' + getDate()`. -/
def parsedDate (env : Env) : String :=
  toString env.year ++ "/" ++ toString (env.month0 + 1) ++ "/" ++ toString env.day

/-- `SocketUser.reset.commit`: validates `{code, password}` (`invalid-data`
when either is falsy), then fans out three concurrent sub-actions (resolve
the code's uid from `reset:uid`, perform the reset commit, fire the
`action:password.reset` hook).  If the commit rejects, the error propagates
after the fan-out.  Otherwise it writes one audit event with the resolved uid
and the caller ip, reads the username and composes the `reset_notify` email
with the `Y/M/D` date string. -/
def reset.commit (env : Env) (socket : Socket) (data : Option CommitData) :
    Except String Unit × List Effect :=
  match data with
  | none => (Except.error invalidData, [])
  | some d =>
    if strFalsy d.code || strFalsy d.password then
      (Except.error invalidData, [])
    else
      let c := d.code.getD ""
      let p := d.password.getD ""
      let fanout := [Effect.dbGetObjectField "reset:uid" c,
                     Effect.userResetCommit c p,
                     Effect.hooksFire "action:password.reset" socket.uid]
      match env.resetCommitResult c p with
      | Except.error m => (Except.error m, fanout)
      | Except.ok _ =>
        let uid := env.resetUid c
        (Except.ok (),
         fanout ++
         [Effect.eventsLogCommit "password-reset" uid socket.ip,
          Effect.getUserField uid "username",
          Effect.emailerSend "reset_notify" uid (env.username uid) (parsedDate env)])

/-- `SocketUser.follow`: deprecation warning, then delegation to
`api.users.follow` with no gateway-side uid check. -/
def follow (socket : Socket) : Except String Unit × List Effect :=
  (Except.ok (),
   [Effect.warnDeprecated "POST /api/v3/users/follow", Effect.apiFollow socket.uid])

/-- `SocketUser.unfollow`: deprecation warning, then delegation to
`api.users.unfollow` with no gateway-side uid check. -/
def unfollow (socket : Socket) : Except String Unit × List Effect :=
  (Except.ok (),
   [Effect.warnDeprecated "DELETE /api/v3/users/unfollow", Effect.apiUnfollow socket.uid])

/-- `SocketUser.saveSettings`: deprecation warning, then delegation to
`api.users.updateSettings` with no gateway-side uid check. -/
def saveSettings (socket : Socket) : Except String Unit × List Effect :=
  (Except.ok (),
   [Effect.warnDeprecated "PUT /api/v3/users/:uid/settings",
    Effect.apiUpdateSettings socket.uid])

/-- `SocketUser.setTopicSort`: deprecation warning, then delegation to
`api.users.updateSetting` for `topicPostSort` with no gateway-side uid check. -/
def setTopicSort (socket : Socket) : Except String Unit × List Effect :=
  (Except.ok (),
   [Effect.warnDeprecated "PUT /api/v3/users/:uid/setting/topicPostSort",
    Effect.apiUpdateSetting socket.uid "topicPostSort"])

/-- `SocketUser.setCategorySort`: deprecation warning, then delegation to
`api.users.updateSetting` for `categoryTopicSort` with no gateway-side uid
check. -/
def setCategorySort (socket : Socket) : Except String Unit × List Effect :=
  (Except.ok (),
   [Effect.warnDeprecated "PUT /api/v3/users/:uid/setting/categoryTopicSort",
    Effect.apiUpdateSetting socket.uid "categoryTopicSort"])

/-- `SocketUser.getUnreadCount`: 0 for anonymous sessions without any query,
otherwise `topics.getTotalUnread`. -/
def getUnreadCount (env : Env) (socket : Socket) : Nat × List Effect :=
  if socket.uid == 0 then (0, [])
  else (env.totalUnread socket.uid, [Effect.getTotalUnread socket.uid])

/-- `SocketUser.getUnreadChatCount`: 0 for anonymous sessions without any
query, otherwise `messaging.getUnreadCount`. -/
def getUnreadChatCount (env : Env) (socket : Socket) : Nat × List Effect :=
  if socket.uid == 0 then (0, [])
  else (env.unreadChat socket.uid, [Effect.getUnreadChat socket.uid])

/-- The object `topics.getUnreadTids({uid, count: true})` returns, keyed by
the four filters `''`, `new`, `watched`, `unreplied`. -/
structure TidCounts where
  allFilter : Nat
  newFilter : Nat
  watched : Nat
  unreplied : Nat
deriving DecidableEq

/-- The merged result object of `getUnreadCounts` for an authenticated
session: the three raw query results plus the four stable topic-count
fields copied out of `unreadCounts`. -/
structure UnreadBundle where
  unreadCounts : TidCounts
  unreadChatCount : Nat
  unreadNotificationCount : Nat
  unreadTopicCount : Nat
  unreadNewTopicCount : Nat
  unreadWatchedTopicCount : Nat
  unreadUnrepliedTopicCount : Nat
deriving DecidableEq

/-- The result of `getUnreadCounts`: the empty object `{}` for anonymous
sessions, or the merged bundle. -/
inductive UnreadResult where
  | emptyObj
  | full (b : UnreadBundle)
deriving DecidableEq

/-- `SocketUser.getUnreadCounts`: `{}` for anonymous sessions without any
query; otherwise fans out the three queries via `utils.promiseParallel` and
merges them, copying the four filter counts into the stable field names. -/
def getUnreadCounts (env : Env) (socket : Socket) :
    UnreadResult × List Effect :=
  if socket.uid == 0 then (UnreadResult.emptyObj, [])
  else
    let u := socket.uid
    let tids : TidCounts :=
      { allFilter := env.unreadTidsAll u, newFilter := env.unreadTidsNew u,
        watched := env.unreadTidsWatched u, unreplied := env.unreadTidsUnreplied u }
    (UnreadResult.full
      { unreadCounts := tids,
        unreadChatCount := env.unreadChat u,
        unreadNotificationCount := env.unreadNotifCount u,
        unreadTopicCount := tids.allFilter,
        unreadNewTopicCount := tids.newFilter,
        unreadWatchedTopicCount := tids.watched,
        unreadUnrepliedTopicCount := tids.unreplied },
     [Effect.getUnreadTids u, Effect.getUnreadChat u, Effect.getUnreadNotifCount u])

/-- The payload of `setModerationNote`: `{uid, note}` with possibly missing
or falsy fields. -/
structure ModNoteData where
  uid : Option Nat
  note : Option String
deriving DecidableEq

/-- `SocketUser.setModerationNote`: `invalid-data` when the session is
anonymous or the payload lacks `uid`/`note`; then the cheap
`privileges.users.canEdit` check, falling back to
`user.isModeratorOfAnyCategory` only when the first denies; `no-privileges`
when both deny, otherwise one note is appended with the caller's uid as
author and `Date.now()` as timestamp. -/
def setModerationNote (env : Env) (socket : Socket) (data : Option ModNoteData) :
    Except String Unit × List Effect :=
  match data with
  | none => (Except.error invalidData, [])
  | some d =>
    if socket.uid == 0 || natFalsy d.uid || strFalsy d.note then
      (Except.error invalidData, [])
    else
      let target := d.uid.getD 0
      let note := d.note.getD ""
      let appendEff := Effect.appendModerationNote target socket.uid note env.now
      if env.canEdit socket.uid target then
        (Except.ok (), [Effect.canEdit socket.uid target, appendEff])
      else if env.isModeratorOfAnyCategory socket.uid then
        (Except.ok (),
         [Effect.canEdit socket.uid target,
          Effect.isModeratorOfAnyCategory socket.uid, appendEff])
      else
        (Except.error noPrivileges,
         [Effect.canEdit socket.uid target,
          Effect.isModeratorOfAnyCategory socket.uid])

/-- The payload of `deleteUpload`: `{uid, name}`. -/
structure DeleteUploadData where
  uid : Option Nat
  name : Option String
deriving DecidableEq

/-- `SocketUser.deleteUpload`: `invalid-data` when the payload lacks `name`
or `uid`; otherwise delegates to `user.deleteUpload(socket.uid, data.uid,
data.name)`.  No gateway-side authentication check is performed. -/
def deleteUpload (socket : Socket) (data : Option DeleteUploadData) :
    Except String Unit × List Effect :=
  match data with
  | none => (Except.error invalidData, [])
  | some d =>
    if strFalsy d.name || natFalsy d.uid then
      (Except.error invalidData, [])
    else
      (Except.ok (),
       [Effect.userDeleteUpload socket.uid (d.uid.getD 0) (d.name.getD "")])

/-- `SocketUser.gdpr.consent`: unconditionally sets `gdpr_consent = 1` on the
session uid via `user.setUserField`.  No authentication check is performed. -/
def gdpr.consent (socket : Socket) : Except String Unit × List Effect :=
  (Except.ok (), [Effect.setUserField socket.uid "gdpr_consent" 1])

/-- `SocketUser.gdpr.check`: asks whether the caller is an administrator;
when not, the payload uid is overwritten with the session uid; then reads the
`gdpr_consent` field of the effective uid's user record. -/
def gdpr.check (env : Env) (socket : Socket) (dataUid : Nat) :
    String × List Effect :=
  let uid := if env.isAdministrator socket.uid then dataUid else socket.uid
  (env.gdpr_consent uid,
   [Effect.isAdministrator socket.uid,
    Effect.dbGetObjectField ("user:" ++ toString uid) "gdpr_consent"])

end SocketUser

/-! Concrete oracle environments and sessions used to evaluate the model. -/

/-- An authenticated session. -/
def sockA : Socket := ⟨7, "10.0.0.1"⟩

/-- An anonymous session. -/
def sock0 : Socket := ⟨0, "127.0.0.1"⟩

/-- A baseline environment in which every external operation succeeds. -/
def envA : Env where
  requireEmailConfirmation := true
  passwordDisableEdit := false
  resetSendResult := fun _ => Except.ok ()
  resetUid := fun _ => 42
  resetCommitResult := fun _ _ => Except.ok ()
  username := fun _ => "alice"
  year := 2026
  month0 := 9
  day := 11
  canEdit := fun _ _ => false
  isModeratorOfAnyCategory := fun _ => true
  isAdministrator := fun _ => false
  gdpr_consent := fun u => toString u
  totalUnread := fun _ => 3
  unreadChat := fun _ => 2
  unreadNotifCount := fun _ => 1
  unreadTidsAll := fun _ => 4
  unreadTidsNew := fun _ => 5
  unreadTidsWatched := fun _ => 6
  unreadTidsUnreplied := fun _ => 7
  now := 1000

/-- `envA` with the reset issuance failing with the expected
`invalid-email` error. -/
def envFail : Env := { envA with resetSendResult := fun _ => Except.error invalidEmail }

/-- `envA` with the reset issuance failing with an unexpected error. -/
def envBoom : Env :=
  { envA with resetSendResult := fun _ => Except.error "[[error:database-failure]]" }

/-- `envA` with password editing administratively disabled. -/
def envDisabled : Env := { envA with passwordDisableEdit := true }

/-- `envA` with email confirmation switched off. -/
def envNoConfirm : Env := { envA with requireEmailConfirmation := false }

/-- `envA` with every consent flag other than uid 7's changed: agrees with
`envA` on the record of `sockA`'s uid only. -/
def envOtherConsent : Env :=
  { envA with gdpr_consent := fun u => if u == 7 then "7" else "redacted" }

/-- `envA` with both moderation checks denying. -/
def envNoMod : Env := { envA with isModeratorOfAnyCategory := fun _ => false }

/-- `envA` where the caller holds the edit privilege. -/
def envCanEdit : Env := { envA with canEdit := fun _ _ => true }

/-! The claims. -/

/-- C10: `deleteAccount` overwrites the payload's `uid` field with the
session uid before delegating, so for every session and every payload the
external delete operation receives a payload whose `uid` equals the caller's
session uid (the other payload fields passing through unchanged), and a
caller cannot target another user's account through the payload. -/
theorem C10_deleteAccount_self (s : Socket) (data : SocketUser.DeleteAccountData) :
    SocketUser.deleteAccount s data =
      (Except.ok (),
       [Effect.warnDeprecated "DELETE /api/v3/users/:uid/account",
        Effect.apiDeleteAccount s.uid (some s.uid) data.rest]) := rfl

/-- C9: `emailConfirm` rejects an unauthenticated session with
`no-privileges` regardless of the configuration (so the authentication check
is evaluated before the configuration check); an authenticated session with
the email-confirmation flag off is rejected with
`email-confirmations-are-disabled`; the validation email is sent exactly when
both checks pass, and rejections perform no external call. -/
theorem C9_emailConfirm (env : Env) (ip : String) (u : Nat) :
    SocketUser.emailConfirm env ⟨0, ip⟩ = (Except.error noPrivileges, []) ∧
    (u ≠ 0 → env.requireEmailConfirmation = false →
       SocketUser.emailConfirm env ⟨u, ip⟩ =
         (Except.error emailConfirmationsDisabled, [])) ∧
    (u ≠ 0 → env.requireEmailConfirmation = true →
       SocketUser.emailConfirm env ⟨u, ip⟩ =
         (Except.ok (), [Effect.sendValidationEmail u])) := by
  refine ⟨rfl, ?_, ?_⟩ <;> intro hu hc <;> simp [SocketUser.emailConfirm, hu, hc]

/-- C9 witness: the theorem evaluated at uid 7 under `envNoConfirm` and
`envA`. -/
theorem C9_emailConfirm_witness :
    SocketUser.emailConfirm envNoConfirm ⟨0, "ip"⟩ = (Except.error noPrivileges, []) ∧
    SocketUser.emailConfirm envNoConfirm ⟨7, "ip"⟩ =
      (Except.error emailConfirmationsDisabled, []) ∧
    SocketUser.emailConfirm envA ⟨7, "ip"⟩ =
      (Except.ok (), [Effect.sendValidationEmail 7]) :=
  ⟨(C9_emailConfirm envNoConfirm "ip" 7).1,
   (C9_emailConfirm envNoConfirm "ip" 7).2.1 (by decide) rfl,
   (C9_emailConfirm envA "ip" 7).2.2 (by decide) rfl⟩

/-- C1 counterexample: the claim fails as stated.  `gdpr.consent` invoked by
an unauthenticated session (uid 0) does not yield `no-privileges`: it returns
normally and performs an external-service call (the consent write on uid 0);
and `setModerationNote` invoked by an unauthenticated session yields
`invalid-data`, not `no-privileges`. -/
theorem C1_counterexample :
    (SocketUser.gdpr.consent sock0).1 = Except.ok () ∧
    (SocketUser.gdpr.consent sock0).2 = [Effect.setUserField 0 "gdpr_consent" 1] ∧
    Effect.isExternalCall (Effect.setUserField 0 "gdpr_consent" 1) = true ∧
    (SocketUser.setModerationNote envA sock0 (some ⟨some 5, some "bad"⟩)).1 =
      Except.error invalidData ∧
    invalidData ≠ noPrivileges :=
  ⟨rfl, rfl, rfl, rfl, by decide⟩

/-- C1 amended: with an unauthenticated session (uid 0), `emailConfirm`
yields `no-privileges` and `setModerationNote` yields `invalid-data`, each
before any external-service call; `gdpr.consent` performs the consent write
on uid 0 without any gateway-side check; `deleteAccount`, `follow`,
`unfollow`, `saveSettings`, `setTopicSort`, `setCategorySort` and
`deleteUpload` perform no gateway-side authentication check and delegate to
the external service layer; the read-only aggregates `getUnreadCount`,
`getUnreadChatCount` and `getUnreadCounts` return their documented zero value
without any external call. -/
theorem C1_amended (env : Env) (ip : String) (ddata : SocketUser.DeleteAccountData)
    (mdata : Option SocketUser.ModNoteData) :
    SocketUser.emailConfirm env ⟨0, ip⟩ = (Except.error noPrivileges, []) ∧
    SocketUser.setModerationNote env ⟨0, ip⟩ mdata = (Except.error invalidData, []) ∧
    SocketUser.gdpr.consent ⟨0, ip⟩ =
      (Except.ok (), [Effect.setUserField 0 "gdpr_consent" 1]) ∧
    SocketUser.deleteAccount ⟨0, ip⟩ ddata =
      (Except.ok (),
       [Effect.warnDeprecated "DELETE /api/v3/users/:uid/account",
        Effect.apiDeleteAccount 0 (some 0) ddata.rest]) ∧
    SocketUser.follow ⟨0, ip⟩ =
      (Except.ok (), [Effect.warnDeprecated "POST /api/v3/users/follow",
                      Effect.apiFollow 0]) ∧
    SocketUser.unfollow ⟨0, ip⟩ =
      (Except.ok (), [Effect.warnDeprecated "DELETE /api/v3/users/unfollow",
                      Effect.apiUnfollow 0]) ∧
    SocketUser.saveSettings ⟨0, ip⟩ =
      (Except.ok (), [Effect.warnDeprecated "PUT /api/v3/users/:uid/settings",
                      Effect.apiUpdateSettings 0]) ∧
    SocketUser.setTopicSort ⟨0, ip⟩ =
      (Except.ok (),
       [Effect.warnDeprecated "PUT /api/v3/users/:uid/setting/topicPostSort",
        Effect.apiUpdateSetting 0 "topicPostSort"]) ∧
    SocketUser.setCategorySort ⟨0, ip⟩ =
      (Except.ok (),
       [Effect.warnDeprecated "PUT /api/v3/users/:uid/setting/categoryTopicSort",
        Effect.apiUpdateSetting 0 "categoryTopicSort"]) ∧
    SocketUser.deleteUpload ⟨0, ip⟩ (some ⟨some 3, some "f.png"⟩) =
      (Except.ok (), [Effect.userDeleteUpload 0 3 "f.png"]) ∧
    SocketUser.getUnreadCount env ⟨0, ip⟩ = (0, []) ∧
    SocketUser.getUnreadChatCount env ⟨0, ip⟩ = (0, []) ∧
    SocketUser.getUnreadCounts env ⟨0, ip⟩ = (SocketUser.UnreadResult.emptyObj, []) := by
  refine ⟨rfl, ?_, rfl, rfl, rfl, rfl, rfl, rfl, rfl, rfl, rfl, rfl, rfl⟩
  cases mdata <;> rfl

/-- C8: `reset.send` with an absent or empty email fails with `invalid-data`,
and with password editing administratively disabled fails with
`no-privileges`; all three rejections return an empty trace, so no issuance
request, no audit-log entry, no cooldown and no other external call has
occurred. -/
theorem C8_reset_send_validation (env : Env) (s : Socket) (e : String)
    (he : e ≠ "") :
    SocketUser.reset.send env s none = (Except.error invalidData, []) ∧
    SocketUser.reset.send env s (some "") = (Except.error invalidData, []) ∧
    (env.passwordDisableEdit = true →
       SocketUser.reset.send env s (some e) = (Except.error noPrivileges, [])) := by
  refine ⟨rfl, rfl, fun hd => ?_⟩
  simp [SocketUser.reset.send, he, hd]

/-- C8 witness: the theorem evaluated at `envDisabled` with the email
`known@user.tld`. -/
theorem C8_reset_send_validation_witness :
    SocketUser.reset.send envDisabled sockA none = (Except.error invalidData, []) ∧
    SocketUser.reset.send envDisabled sockA (some "") = (Except.error invalidData, []) ∧
    SocketUser.reset.send envDisabled sockA (some "known@user.tld") =
      (Except.error noPrivileges, []) :=
  ⟨(C8_reset_send_validation envDisabled sockA "known@user.tld" (by decide)).1,
   (C8_reset_send_validation envDisabled sockA "known@user.tld" (by decide)).2.1,
   (C8_reset_send_validation envDisabled sockA "known@user.tld" (by decide)).2.2 rfl⟩

/-- Membership in `internalErrors` is exactly the disjunction of the two
expected failure messages. -/
lemma mem_internalErrors (m : String) :
    m ∈ SocketUser.internalErrors ↔ (m = invalidEmail ∨ m = resetRateLimited) := by
  simp [SocketUser.internalErrors]

/-- C2 counterexample: the claim fails as stated.  A post-validation
invocation of `reset.send` whose issuance fails (here with the expected
`invalid-email` error) returns without any cooldown delay: its trace holds
the issuance request and the audit log entry, and no `sleep` at all. -/
theorem C2_counterexample :
    envFail.passwordDisableEdit = false ∧
    SocketUser.reset.send envFail sockA (some "known@user.tld") =
      (Except.ok (),
       [Effect.userResetSend "known@user.tld",
        SocketUser.logEvent sockA "known@user.tld" invalidEmail]) ∧
    (SocketUser.reset.send envFail sockA (some "known@user.tld")).2.countP
        Effect.isSleep = 0 :=
  ⟨rfl, rfl, rfl⟩

/-- C2 amended: the fixed 2500 ms cooldown delay is imposed on the success
path only — when the issuance succeeds, the call logs the success audit
event and sleeps 2500 before returning; when the issuance fails, the call
returns (or rethrows) without any cooldown delay. -/
theorem C2_amended (env : Env) (s : Socket) (e : String)
    (he : e ≠ "") (hd : env.passwordDisableEdit = false) :
    (env.resetSendResult e = Except.ok () →
       (SocketUser.reset.send env s (some e)).2 =
         [Effect.userResetSend e,
          SocketUser.logEvent s e "[[success:success]]",
          Effect.sleep 2500]) ∧
    (∀ m, env.resetSendResult e = Except.error m →
       (SocketUser.reset.send env s (some e)).2.countP Effect.isSleep = 0) := by
  constructor
  · intro h
    simp [SocketUser.reset.send, he, hd, h]
  · intro m h
    by_cases hm : m ∈ SocketUser.internalErrors <;>
      simp [SocketUser.reset.send, he, hd, h, hm, List.countP_cons,
            Effect.isSleep, SocketUser.logEvent]

/-- C2 amended witness: under `envA` the issuance succeeds and the trace ends
with the 2500 ms sleep; under `envFail` it fails and the trace holds no
sleep. -/
theorem C2_amended_witness :
    (SocketUser.reset.send envA sockA (some "known@user.tld")).2 =
      [Effect.userResetSend "known@user.tld",
       SocketUser.logEvent sockA "known@user.tld" "[[success:success]]",
       Effect.sleep 2500] ∧
    (SocketUser.reset.send envFail sockA (some "known@user.tld")).2.countP
        Effect.isSleep = 0 :=
  ⟨(C2_amended envA sockA "known@user.tld" (by decide) rfl).1 rfl,
   (C2_amended envFail sockA "known@user.tld" (by decide) rfl).2 invalidEmail rfl⟩

/-- C3: every post-validation invocation of `reset.send` writes exactly one
audit-log entry; when the issuance fails with message `m`, the entry records
`m`; the error is swallowed (normal return) exactly when `m` is one of the
two expected kinds (`invalid-email`, `reset-rate-limited`), and every other
failure propagates to the caller; on success the call returns normally. -/
theorem C3_reset_send_audit (env : Env) (s : Socket) (e : String)
    (he : e ≠ "") (hd : env.passwordDisableEdit = false) :
    (SocketUser.reset.send env s (some e)).2.countP Effect.isAuditLog = 1 ∧
    (env.resetSendResult e = Except.ok () →
       (SocketUser.reset.send env s (some e)).1 = Except.ok ()) ∧
    (∀ m, env.resetSendResult e = Except.error m →
       SocketUser.logEvent s e m ∈ (SocketUser.reset.send env s (some e)).2 ∧
       ((m = invalidEmail ∨ m = resetRateLimited) →
          (SocketUser.reset.send env s (some e)).1 = Except.ok ()) ∧
       (m ≠ invalidEmail → m ≠ resetRateLimited →
          (SocketUser.reset.send env s (some e)).1 = Except.error m)) := by
  refine ⟨?_, ?_, ?_⟩
  · cases h : env.resetSendResult e with
    | ok v =>
      simp [SocketUser.reset.send, he, hd, h, List.countP_cons,
            Effect.isAuditLog, SocketUser.logEvent]
    | error m =>
      by_cases hm : m ∈ SocketUser.internalErrors <;>
        simp [SocketUser.reset.send, he, hd, h, hm, List.countP_cons,
              Effect.isAuditLog, SocketUser.logEvent]
  · intro h
    simp [SocketUser.reset.send, he, hd, h]
  · intro m h
    refine ⟨?_, ?_, ?_⟩
    · by_cases hm : m ∈ SocketUser.internalErrors <;>
        simp [SocketUser.reset.send, he, hd, h, hm]
    · rintro (hm | hm) <;> subst hm <;>
        simp [SocketUser.reset.send, he, hd, h, SocketUser.internalErrors]
    · intro h1 h2
      have hm : m ∉ SocketUser.internalErrors := by
        simp [mem_internalErrors, h1, h2]
      simp [SocketUser.reset.send, he, hd, h, hm]

/-- C3 witness: evaluated at the success, expected-failure and
unexpected-failure environments with the email `known@user.tld`. -/
theorem C3_reset_send_audit_witness :
    (SocketUser.reset.send envBoom sockA (some "known@user.tld")).2.countP
        Effect.isAuditLog = 1 ∧
    (SocketUser.reset.send envFail sockA (some "known@user.tld")).1 =
      Except.ok () ∧
    (SocketUser.reset.send envBoom sockA (some "known@user.tld")).1 =
      Except.error "[[error:database-failure]]" :=
  ⟨(C3_reset_send_audit envBoom sockA "known@user.tld" (by decide) rfl).1,
   ((C3_reset_send_audit envFail sockA "known@user.tld" (by decide) rfl).2.2
      invalidEmail rfl).2.1 (Or.inl rfl),
   ((C3_reset_send_audit envBoom sockA "known@user.tld" (by decide) rfl).2.2
      "[[error:database-failure]]" rfl).2.2 (by decide) (by decide)⟩

/-- C4: `reset.commit` with a payload missing (or empty) either `code` or
`password` fails with `invalid-data` on an empty trace, so none of the three
sub-actions has run; on a successful commit the full trace shows the
three fanned-out sub-actions followed by exactly one audit-log entry
(recording the uid resolved from the code and the caller's ip) and exactly
one notification-email composition addressed to that uid, carrying that uid's
username and the date `year/(month0+1)/day` — 1-indexed month, no
zero-padding. -/
theorem C4_reset_commit (env : Env) (s : Socket) (c p : String)
    (hc : c ≠ "") (hp : p ≠ "") :
    (∀ d : Option SocketUser.CommitData,
       (d = none ∨ ∃ x, d = some x ∧ (strFalsy x.code || strFalsy x.password) = true) →
       SocketUser.reset.commit env s d = (Except.error invalidData, [])) ∧
    (env.resetCommitResult c p = Except.ok () →
       SocketUser.reset.commit env s (some ⟨some c, some p⟩) =
         (Except.ok (),
          [Effect.dbGetObjectField "reset:uid" c,
           Effect.userResetCommit c p,
           Effect.hooksFire "action:password.reset" s.uid,
           Effect.eventsLogCommit "password-reset" (env.resetUid c) s.ip,
           Effect.getUserField (env.resetUid c) "username",
           Effect.emailerSend "reset_notify" (env.resetUid c)
             (env.username (env.resetUid c)) (SocketUser.parsedDate env)]) ∧
       (SocketUser.reset.commit env s (some ⟨some c, some p⟩)).2.countP
           Effect.isAuditLog = 1 ∧
       (SocketUser.reset.commit env s (some ⟨some c, some p⟩)).2.countP
           Effect.isEmailSend = 1) := by
  constructor
  · rintro d (rfl | ⟨x, rfl, hx⟩)
    · rfl
    · simp [SocketUser.reset.commit, hx]
  · intro h
    refine ⟨?_, ?_, ?_⟩ <;>
      simp [SocketUser.reset.commit, strFalsy, hc, hp, h, List.countP_cons,
            Effect.isAuditLog, Effect.isEmailSend]

/-- C4 witness: evaluated at `envA` with the payload
`{code := c1, password := pw}` and, for the validation half, a payload
missing the password. -/
theorem C4_reset_commit_witness :
    SocketUser.reset.commit envA sockA (some ⟨some "c1", none⟩) =
      (Except.error invalidData, []) ∧
    SocketUser.reset.commit envA sockA (some ⟨some "c1", some "pw"⟩) =
      (Except.ok (),
       [Effect.dbGetObjectField "reset:uid" "c1",
        Effect.userResetCommit "c1" "pw",
        Effect.hooksFire "action:password.reset" 7,
        Effect.eventsLogCommit "password-reset" 42 "10.0.0.1",
        Effect.getUserField 42 "username",
        Effect.emailerSend "reset_notify" 42 "alice" "2026/10/11"]) :=
  ⟨(C4_reset_commit envA sockA "c1" "pw" (by decide) (by decide)).1
     (some ⟨some "c1", none⟩) (Or.inr ⟨⟨some "c1", none⟩, rfl, rfl⟩),
   ((C4_reset_commit envA sockA "c1" "pw" (by decide) (by decide)).2 rfl).1⟩

/-- C5: for a non-administrator caller, `gdpr.check` returns the caller's own
consent flag: the payload uid is immaterial (two runs differing only in the
payload uid agree), the result is the caller's own `gdpr_consent` field, and
the result is unchanged across environments that agree only on the caller's
own record — so no other user's flag is ever disclosed. -/
theorem C5_gdpr_check (env env2 : Env) (s : Socket) (a b : Nat)
    (h : env.isAdministrator s.uid = false)
    (h2 : env2.isAdministrator s.uid = false)
    (hsame : env.gdpr_consent s.uid = env2.gdpr_consent s.uid) :
    (SocketUser.gdpr.check env s a).1 = (SocketUser.gdpr.check env s b).1 ∧
    (SocketUser.gdpr.check env s a).1 = env.gdpr_consent s.uid ∧
    (SocketUser.gdpr.check env s a).1 = (SocketUser.gdpr.check env2 s b).1 := by
  simp [SocketUser.gdpr.check, h, h2, hsame]

/-- C5 witness: caller uid 7 under `envA` and `envOtherConsent` (which agree
only on uid 7's record), with payload uids 3 and 9. -/
theorem C5_gdpr_check_witness :
    (SocketUser.gdpr.check envA sockA 3).1 = (SocketUser.gdpr.check envA sockA 9).1 ∧
    (SocketUser.gdpr.check envA sockA 3).1 = envA.gdpr_consent 7 ∧
    (SocketUser.gdpr.check envA sockA 3).1 =
      (SocketUser.gdpr.check envOtherConsent sockA 9).1 :=
  C5_gdpr_check envA envOtherConsent sockA 3 9 rfl rfl rfl

/-- C6: after validation, `setModerationNote` runs the cheap
`canEdit` lookup first; when it allows, the note is appended at once and the
moderator-of-any-category check never runs; when it denies, the moderator
check runs, and either the note is appended (check allows) or the call fails
with `no-privileges` with no note appended (check denies).  Every appended
note carries the caller's uid as author and the current timestamp. -/
theorem C6_setModerationNote (env : Env) (s : Socket) (uid : Nat) (note : String)
    (hs : s.uid ≠ 0) (hu : uid ≠ 0) (hn : note ≠ "") :
    (env.canEdit s.uid uid = true →
       SocketUser.setModerationNote env s (some ⟨some uid, some note⟩) =
         (Except.ok (),
          [Effect.canEdit s.uid uid,
           Effect.appendModerationNote uid s.uid note env.now])) ∧
    (env.canEdit s.uid uid = false → env.isModeratorOfAnyCategory s.uid = true →
       SocketUser.setModerationNote env s (some ⟨some uid, some note⟩) =
         (Except.ok (),
          [Effect.canEdit s.uid uid,
           Effect.isModeratorOfAnyCategory s.uid,
           Effect.appendModerationNote uid s.uid note env.now])) ∧
    (env.canEdit s.uid uid = false → env.isModeratorOfAnyCategory s.uid = false →
       SocketUser.setModerationNote env s (some ⟨some uid, some note⟩) =
         (Except.error noPrivileges,
          [Effect.canEdit s.uid uid,
           Effect.isModeratorOfAnyCategory s.uid])) := by
  refine ⟨fun h1 => ?_, fun h1 h2 => ?_, fun h1 h2 => ?_⟩
  · simp [SocketUser.setModerationNote, natFalsy, strFalsy, hs, hu, hn, h1]
  · simp [SocketUser.setModerationNote, natFalsy, strFalsy, hs, hu, hn, h1, h2]
  · simp [SocketUser.setModerationNote, natFalsy, strFalsy, hs, hu, hn, h1, h2]

/-- C6 witness: caller uid 7, target uid 5, note `m`, under `envCanEdit`
(first check allows), `envA` (first denies, moderator check allows) and
`envNoMod` (both deny). -/
theorem C6_setModerationNote_witness :
    SocketUser.setModerationNote envCanEdit sockA (some ⟨some 5, some "m"⟩) =
      (Except.ok (),
       [Effect.canEdit 7 5, Effect.appendModerationNote 5 7 "m" 1000]) ∧
    SocketUser.setModerationNote envA sockA (some ⟨some 5, some "m"⟩) =
      (Except.ok (),
       [Effect.canEdit 7 5, Effect.isModeratorOfAnyCategory 7,
        Effect.appendModerationNote 5 7 "m" 1000]) ∧
    SocketUser.setModerationNote envNoMod sockA (some ⟨some 5, some "m"⟩) =
      (Except.error noPrivileges,
       [Effect.canEdit 7 5, Effect.isModeratorOfAnyCategory 7]) :=
  ⟨(C6_setModerationNote envCanEdit sockA 5 "m" (by decide) (by decide)
      (by decide)).1 rfl,
   (C6_setModerationNote envA sockA 5 "m" (by decide) (by decide)
      (by decide)).2.1 rfl rfl,
   (C6_setModerationNote envNoMod sockA 5 "m" (by decide) (by decide)
      (by decide)).2.2 rfl rfl⟩

/-- C7: `getUnreadCounts` for an anonymous session returns the empty object
on an empty trace (no query is issued); for an authenticated session it
issues the three fanned-out queries and returns the merged bundle whose
`unreadTopicCount`, `unreadNewTopicCount`, `unreadWatchedTopicCount`,
`unreadUnrepliedTopicCount`, `unreadChatCount` and `unreadNotificationCount`
fields each equal the corresponding query result. -/
theorem C7_getUnreadCounts (env : Env) (s : Socket) (ip : String) :
    SocketUser.getUnreadCounts env ⟨0, ip⟩ = (SocketUser.UnreadResult.emptyObj, []) ∧
    (s.uid ≠ 0 →
       SocketUser.getUnreadCounts env s =
         (SocketUser.UnreadResult.full
            { unreadCounts :=
                { allFilter := env.unreadTidsAll s.uid,
                  newFilter := env.unreadTidsNew s.uid,
                  watched := env.unreadTidsWatched s.uid,
                  unreplied := env.unreadTidsUnreplied s.uid },
              unreadChatCount := env.unreadChat s.uid,
              unreadNotificationCount := env.unreadNotifCount s.uid,
              unreadTopicCount := env.unreadTidsAll s.uid,
              unreadNewTopicCount := env.unreadTidsNew s.uid,
              unreadWatchedTopicCount := env.unreadTidsWatched s.uid,
              unreadUnrepliedTopicCount := env.unreadTidsUnreplied s.uid },
          [Effect.getUnreadTids s.uid, Effect.getUnreadChat s.uid,
           Effect.getUnreadNotifCount s.uid])) := by
  refine ⟨rfl, fun h => ?_⟩
  simp [SocketUser.getUnreadCounts, h]

/-- C7 witness: evaluated at `envA` for the anonymous session and for
uid 7. -/
theorem C7_getUnreadCounts_witness :
    SocketUser.getUnreadCounts envA sock0 = (SocketUser.UnreadResult.emptyObj, []) ∧
    SocketUser.getUnreadCounts envA sockA =
      (SocketUser.UnreadResult.full
         { unreadCounts :=
             { allFilter := 4, newFilter := 5, watched := 6, unreplied := 7 },
           unreadChatCount := 2,
           unreadNotificationCount := 1,
           unreadTopicCount := 4,
           unreadNewTopicCount := 5,
           unreadWatchedTopicCount := 6,
           unreadUnrepliedTopicCount := 7 },
       [Effect.getUnreadTids 7, Effect.getUnreadChat 7,
        Effect.getUnreadNotifCount 7]) :=
  ⟨(C7_getUnreadCounts envA sockA "127.0.0.1").1,
   (C7_getUnreadCounts envA sockA "127.0.0.1").2 (by decide)⟩

end NodeBBSocketUser
